import Mathlib

/-!
Verification of the concurrency-orchestration core of hey-apm (src/main.go).

The Go source is shallowly embedded: `parseFlags` becomes a pure function from
the process environment and the supplied command-line values to the produced
configuration (plus its `rand.Seed` side-effect trace); `Main`'s interrupt
wiring becomes an event list; `runWorkers` becomes a function of the drawn
random samples, the per-goroutine scheduling data and the worker-facade
outcomes, all passed explicitly.  Machine integers are modelled as `Int`
(flag values are produced by strconv-style parsers and hence already fit in
64 bits; no arithmetic in the modelled code can overflow).  Fallible code
(the `panic` on a bad lookback value, the `panic` inside `rand.Intn`)
returns `Except`/`Option` or an explicit `panicked` outcome.
-/

/-- Error values returned by worker tasks; Go `error` values are opaque here. -/
abbrev Err := String

/-- Go's `time.Second` in nanoseconds (`time.Duration` is an int64 nanosecond count). -/
def nanosPerSecond : Int := 1000000000

/-- Modelled from the spec: the `models.Input` configuration record (package
`models` is not under src/).  The fields and their Go zero-value defaults are
exactly the ones populated and read by src/main.go; a field left unset by
`parseFlags` keeps its Go zero value. -/
structure Input where
  IsBenchmark : Bool := false
  ApmServerUrl : String := ""
  ApmServerSecret : String := ""
  APIKey : String := ""
  ElasticsearchUrl : String := ""
  ElasticsearchAuth : String := ""
  ApmElasticsearchUrl : String := ""
  ApmElasticsearchAuth : String := ""
  ServiceName : String := ""
  RunTimeout : Int := 0
  FlushTimeout : Int := 0
  Instances : Int := 0
  DelayMillis : Int := 0
  RegressionDays : String := ""
  RegressionMargin : Rat := 0
  TransactionFrequency : Int := 0
  TransactionLimit : Int := 0
  SpanMaxLimit : Int := 0
  SpanMinLimit : Int := 0
  ErrorFrequency : Int := 0
  ErrorLimit : Int := 0
  ErrorFrameMaxLimit : Int := 0
  ErrorFrameMinLimit : Int := 0
deriving DecidableEq, Repr

/-- The values the command line supplies for each flag registered in
`parseFlags` (src/main.go:83-119): `none` means the flag was not passed, so
`flag.Parse` leaves the flag variable at its registered default.  Durations
are nanosecond counts, as in Go.  Flag-parsing mechanics themselves are out
of scope (spec §1); values are taken post-lexing but pre-defaulting. -/
structure Args where
  run : Option Int := none
  flush : Option Int := none
  seed : Option Int := none
  instances : Option Int := none
  delay : Option Int := none
  serviceName : Option String := none
  apmSecret : Option String := none
  apiKey : Option String := none
  apmUrl : Option String := none
  esUrl : Option String := none
  esAuth : Option String := none
  apmEsUrl : Option String := none
  apmEsAuth : Option String := none
  bench : Option Bool := none
  rm : Option Rat := none
  rd : Option String := none
  e : Option Int := none
  ef : Option Int := none
  ex : Option Int := none
  em : Option Int := none
  sx : Option Int := none
  sm : Option Int := none
  t : Option Int := none
  tf : Option Int := none
deriving Repr

/-- Decimal value of one digit character, `none` on a non-digit
(Go strconv: base-10 digits are the characters 48-57). -/
def decDigitVal (c : Char) : Option Nat :=
  if 48 ≤ c.toNat ∧ c.toNat ≤ 57 then some (c.toNat - 48) else none

/-- Accumulating base-10 evaluation of a digit string; `none` on any non-digit. -/
def decDigitsAux : Nat → List Char → Option Nat
  | acc, [] => some acc
  | acc, c :: cs =>
    match decDigitVal c with
    | none => none
    | some d => decDigitsAux (10 * acc + d) cs

/-- Base-10 value of a nonempty all-digit character list, `none` otherwise. -/
def decDigitsVal (cs : List Char) : Option Nat :=
  match cs with
  | [] => none
  | _ :: _ => decDigitsAux 0 cs

/-- Modelled: Go `strconv.Atoi` (= `ParseInt(s, 10, 0)` with 64-bit int):
an optional sign followed by at least one base-10 digit, with the value
required to fit a signed 64-bit integer; anything else is an error
(`parseFlags` only inspects whether the error is non-nil, so the error
payload is reduced to a tag string). -/
def goAtoi (s : String) : Except String Int :=
  let syntaxErr : String := "invalid syntax"
  let rangeErr : String := "value out of range"
  match s.data with
  | [] => .error syntaxErr
  | c :: rest =>
    let signed : Bool × List Char :=
      if c.toNat = 45 then (true, rest)
      else if c.toNat = 43 then (false, rest)
      else (false, c :: rest)
    match decDigitsVal signed.2 with
    | none => .error syntaxErr
    | some v =>
      if signed.1 then
        if v ≤ 2 ^ 63 then .ok (-(v : Int)) else .error rangeErr
      else
        if v ≤ 2 ^ 63 - 1 then .ok (v : Int) else .error rangeErr

/-- The registered default of the service-name flag (src/main.go:92). -/
def heyService : String := "hey-service"

/-- The registered default of the apm-url flag (src/main.go:97). -/
def apmUrlDefault : String := "http://localhost:8200"

/-- The registered default of the es-url and apm-es-url flags
(src/main.go:99, 102). -/
def esUrlDefault : String := "http://localhost:9200"

/-- The registered default of the regression-days flag (src/main.go:107). -/
def rdDefault : String := "7"

/-- The empty string, as environment-variable value and as flag value. -/
def emptyEnv : String := ""

/-- Result of `parseFlags` (src/main.go:81-163): the `rand.Seed` calls it
performs, in order, and either the produced configuration or the payload of
the `panic(err)` at src/main.go:146. -/
structure ParseEffects where
  seedCalls : List Int
  result : Except String Input
deriving Repr

/-- src/main.go:81-163, `parseFlags`.  Inputs: the value of the
`ELASTIC_APM_SERVICE_NAME` environment variable (src/main.go:90), the
supplied command-line flag values, and the current Unix time (used as the
default of the `-seed` flag, whose default expression `time.Now().Unix()` is
evaluated at registration).  Note the service-name handling at
src/main.go:90-93: the pointer returned by `flag.String` is dereferenced
immediately — *before* `flag.Parse()` at line 120 — so when the environment
variable is empty the registered default is used and a supplied
`-service-name` argument is never observed. -/
def parseFlags (env : String) (args : Args) (nowUnix : Int) : ParseEffects :=
  let runTimeout := args.run.getD (30 * nanosPerSecond)
  let flushTimeout := args.flush.getD (10 * nanosPerSecond)
  let seed := args.seed.getD nowUnix
  let instances := args.instances.getD 1
  let delayMillis := args.delay.getD 1000
  -- src/main.go:90-93: pre-Parse dereference of the service-name flag default
  let serviceName := if env = emptyEnv then heyService else env
  let apmServerSecret := args.apmSecret.getD emptyEnv
  let apmServerAPIKey := args.apiKey.getD emptyEnv
  let apmServerUrl := args.apmUrl.getD apmUrlDefault
  let elasticsearchUrl := args.esUrl.getD esUrlDefault
  let elasticsearchAuth := args.esAuth.getD emptyEnv
  let apmElasticsearchUrl := args.apmEsUrl.getD esUrlDefault
  let apmElasticsearchAuth := args.apmEsAuth.getD emptyEnv
  let isBench := args.bench.getD false
  let regressionMargin := args.rm.getD ((11 : Rat) / 10)
  let regressionDays := args.rd.getD rdDefault
  let errorLimit := args.e.getD (2 ^ 63 - 1)
  let errorFrequency := args.ef.getD 1
  let errorFrameMaxLimit := args.ex.getD 10
  let errorFrameMinLimit := args.em.getD 0
  let spanMaxLimit0 := args.sx.getD 10
  let spanMinLimit := args.sm.getD 1
  let transactionLimit := args.t.getD (2 ^ 63 - 1)
  let transactionFrequency := args.tf.getD 1
  -- src/main.go:122-124: clamp-up of the span maximum
  let spanMaxLimit := if spanMaxLimit0 < spanMinLimit then spanMinLimit else spanMaxLimit0
  -- src/main.go:126: rand.Seed(*seed)
  let seedCalls := [seed]
  let base : Input :=
    { IsBenchmark := isBench
      ApmServerUrl := apmServerUrl
      ApmServerSecret := apmServerSecret
      APIKey := apmServerAPIKey
      ElasticsearchUrl := elasticsearchUrl
      ElasticsearchAuth := elasticsearchAuth
      ApmElasticsearchUrl := apmElasticsearchUrl
      ApmElasticsearchAuth := apmElasticsearchAuth
      ServiceName := serviceName
      RunTimeout := runTimeout
      FlushTimeout := flushTimeout
      Instances := instances
      DelayMillis := delayMillis }
  if isBench then
    match goAtoi regressionDays with
    | .error err => ⟨seedCalls, .error err⟩
    | .ok _ =>
      ⟨seedCalls, .ok { base with
          RegressionDays := regressionDays
          RegressionMargin := regressionMargin }⟩
  else
    ⟨seedCalls, .ok { base with
        TransactionFrequency := transactionFrequency
        TransactionLimit := transactionLimit
        SpanMaxLimit := spanMaxLimit
        SpanMinLimit := spanMinLimit
        ErrorFrequency := errorFrequency
        ErrorLimit := errorLimit
        ErrorFrameMaxLimit := errorFrameMaxLimit
        ErrorFrameMinLimit := errorFrameMinLimit }⟩

/-- src/main.go:23-26, `func init`: the process seeds the shared generator
with the constant 1000 before `main` runs. -/
def initSeedCalls : List Int := [1000]

/-- All `rand.Seed` calls made during one process run reaching configuration
construction: the package `init` call followed by the `parseFlags` call. -/
def processSeedCalls (env : String) (args : Args) (nowUnix : Int) : List Int :=
  initSeedCalls ++ (parseFlags env args nowUnix).seedCalls

/-- Whether an `Except` result is the error case. -/
def resultIsError (r : Except String Input) : Bool :=
  match r with
  | .error _ => true
  | .ok _ => false

/-- Whether `goAtoi` rejects a string. -/
def atoiFails (s : String) : Bool :=
  match goAtoi s with
  | .error _ => true
  | .ok _ => false

/-- The two shutdown disciplines `Main` can wire to the interrupt signal
(src/main.go:41-48 and 56-62). -/
inductive InterruptDiscipline
  | hardCancel
  | gracefulStop
deriving DecidableEq, Repr

/-- What an interrupt-handler goroutine does to the shared control
primitives: cancel the shared cancellation context, or close the broadcast
stop channel. -/
inductive HandlerAction
  | cancelSharedCtx
  | closeStopChannel
deriving DecidableEq, Repr

/-- The actions performed by the single handler goroutine `Main` spawns,
given how many interrupt notifications arrive during the run.  The
goroutine blocks on one channel receive, performs its single deferred
action, and exits (src/main.go:41-48, 56-62), so it acts at most once:
later interrupts find no receiver. -/
def interruptHandler (d : InterruptDiscipline) (interrupts : Nat) : List HandlerAction :=
  if interrupts = 0 then []
  else
    match d with
    | .hardCancel => [.cancelSharedCtx]
    | .gracefulStop => [.closeStopChannel]

/-- Observable milestones of `Main` (src/main.go:34-64), in program order. -/
inductive MainEvent
  | parsedConfig
  | installedHandler (d : InterruptDiscipline)
  | startedBenchmark
  | startedWorkers
deriving DecidableEq, Repr

/-- Whether a `Main` milestone starts benchmark or worker tasks. -/
def startsTask (ev : MainEvent) : Bool :=
  match ev with
  | .startedBenchmark => true
  | .startedWorkers => true
  | _ => false

/-- src/main.go:34-64, `Main`: parse the configuration, then install the
mode-selected interrupt handler, then hand control to the benchmark facade
or to `runWorkers`.  When `parseFlags` panics (bench mode, bad lookback
value) nothing further happens: no handler is installed and no task starts. -/
def mainEvents (env : String) (args : Args) (nowUnix : Int) : List MainEvent :=
  match (parseFlags env args nowUnix).result with
  | .error _ => []
  | .ok input =>
    if input.IsBenchmark then
      [.parsedConfig, .installedHandler .hardCancel, .startedBenchmark]
    else
      [.parsedConfig, .installedHandler .gracefulStop, .startedWorkers]

/-- Modelled: Go `math/rand.Intn` on the shared seeded source.  Faithful to
the guard `if n <= 0 { panic(..) }` (`none` is the panic); otherwise the
drawn value is some element of `[0, n)`, obtained here as the raw sample of
the seeded stream at this draw position reduced mod n.  (`Int31n`'s
rejection-sampling detail, which only selects *which* element of `[0, n)`
comes out so that the distribution is uniform, is collapsed to the mod; the
theorems below use only the panic condition, the range bound, and
determinism in the stream.) -/
def intn (src : Nat → Nat) (pos : Nat) (n : Int) : Option Nat :=
  if n ≤ 0 then none else some (src pos % n.toNat)

/-- Marker for the shared errgroup-derived context `runWorkers` passes to
every worker (src/main.go:67, 74). -/
inductive CtxArg
  | errgroupShared
deriving DecidableEq, Repr

/-- Marker for the stop channel `Main` created and passed through
`runWorkers` to every worker (src/main.go:55, 63, 74). -/
inductive StopArg
  | fromMain
deriving DecidableEq, Repr

/-- Steps one worker task performs, in order (src/main.go:70-76). -/
inductive TaskEvent
  | drewJitter (millis : Nat)
  | slept (nanos : Int)
  | calledWorker (ctx : CtxArg) (config : Input) (instanceId : String) (stop : StopArg)
deriving DecidableEq, Repr

/-- How one worker task ends: a Go panic (which crashes the process), or a
normal return carrying the worker facade's error value. -/
inductive TaskResult
  | panicked (msg : String)
  | completed (err : Option Err)
deriving DecidableEq, Repr

/-- The panic message of `rand.Intn` on a non-positive argument. -/
def intnPanicMsg : String := "invalid argument to Intn"

/-- The instance-id argument `runWorkers` passes to the worker facade
(the literal empty string at src/main.go:74). -/
def noInstanceId : String := ""

/-- The environment one `runWorkers` run is resolved against: `src` is the
raw sample stream of the process's seeded generator (deterministic given the
seed), `posOf i` is the position in that stream at which instance `i`'s
draw lands (fixed by the goroutine schedule, not by the program), `workerErr
i` is the worker facade's result for instance `i`, and `completion` lists
the instance indices in the order their tasks finish. -/
structure RunParams where
  src : Nat → Nat
  posOf : Nat → Nat
  workerErr : Nat → Option Err
  completion : List Nat

/-- The body of one spawned task (the closure at src/main.go:70-76): draw
the jitter with `rand.Intn(input.DelayMillis)`, sleep that many
milliseconds, then call `worker.Run(ctx, input, "", stop)` and return its
error. -/
def taskBody (input : Input) (src : Nat → Nat) (pos : Nat) (workerRes : Option Err) :
    List TaskEvent × TaskResult :=
  match intn src pos input.DelayMillis with
  | none => ([], .panicked intnPanicMsg)
  | some d =>
    ([.drewJitter d, .slept ((d : Int) * 1000000),
      .calledWorker .errgroupShared input noInstanceId .fromMain],
     .completed workerRes)

/-- The tasks `runWorkers` spawns: one per loop iteration of
`for i := 0; i < input.Instances; i++` (src/main.go:68-77). -/
def runWorkersTasks (input : Input) (p : RunParams) : List (List TaskEvent × TaskResult) :=
  (List.range input.Instances.toNat).map fun i =>
    taskBody input p.src (p.posOf i) (p.workerErr i)

/-- Whether a task event is the worker-facade invocation. -/
def isWorkerCallEv (ev : TaskEvent) : Bool :=
  match ev with
  | .calledWorker _ _ _ _ => true
  | _ => false

/-- Total number of worker-facade invocations a `runWorkers` run performs. -/
def workerCallCount (input : Input) (p : RunParams) : Nat :=
  ((runWorkersTasks input p).map fun tk => tk.1.countP isWorkerCallEv).sum

/-- Whether a task result is a panic. -/
def isPanickedRes (r : TaskResult) : Bool :=
  match r with
  | .panicked _ => true
  | .completed _ => false

/-- The error a finished task hands to the errgroup. -/
def errOfResult (r : TaskResult) : Option Err :=
  match r with
  | .panicked _ => none
  | .completed err => err

/-- Modelled from the errgroup library (golang.org/x/sync/errgroup, vendored
by the repo, not under src/): the state shared by a group — the error
captured by `errOnce` and whether the group's derived context has been
cancelled. -/
structure ErrGroupState where
  err : Option Err
  cancelled : Bool
deriving DecidableEq, Repr

/-- A fresh group from `errgroup.WithContext` (src/main.go:67). -/
def errGroupInit : ErrGroupState := ⟨none, false⟩

/-- One task return observed by the group: on the first non-nil error,
`errOnce.Do` records it and cancels the derived context; every other
return leaves the state unchanged. -/
def errGroupDone (g : ErrGroupState) (res : Option Err) : ErrGroupState :=
  match res with
  | none => g
  | some err => if g.err.isSome then g else ⟨some err, true⟩

/-- Folding the group state over the task returns in completion order;
`Wait` blocks until the whole list is consumed. -/
def errGroupFold (results : List (Option Err)) : ErrGroupState :=
  results.foldl errGroupDone errGroupInit

/-- The error `g.Wait()` returns after all tasks finished. -/
def errGroupWaitErr (results : List (Option Err)) : Option Err :=
  (errGroupFold results).err

/-- The task returns in completion order, as the errgroup observes them. -/
def taskErrs (input : Input) (p : RunParams) : List (Option Err) :=
  p.completion.map fun i =>
    errOfResult ((runWorkersTasks input p).getD i ([], .panicked intnPanicMsg)).2

/-- How a `runWorkers` run ends: an unrecovered panic in some task crashes
the whole process; otherwise `g.Wait()` returns the group error. -/
inductive RunOutcome
  | crashed
  | finished (err : Option Err)
deriving DecidableEq, Repr

/-- src/main.go:66-79, `runWorkers`, resolved against a run environment. -/
def runWorkersOutcome (input : Input) (p : RunParams) : RunOutcome :=
  if (runWorkersTasks input p).any (fun tk => isPanickedRes tk.2) then .crashed
  else .finished (errGroupWaitErr (taskErrs input p))

theorem errGroupFold_fixed (l : List (Option Err)) (e : Err) (c : Bool) :
    l.foldl errGroupDone ⟨some e, c⟩ = ⟨some e, c⟩ := by
  induction l with
  | nil => rfl
  | cons hd tl ih =>
    cases hd with
    | none => simpa [errGroupDone] using ih
    | some e2 => simpa [errGroupDone] using ih

theorem errGroupWaitErr_eq_head (l : List (Option Err)) :
    errGroupWaitErr l = (l.filterMap id).head? := by
  induction l with
  | nil => rfl
  | cons hd tl ih =>
    cases hd with
    | none =>
      simpa [errGroupWaitErr, errGroupFold, errGroupDone] using ih
    | some e =>
      simp [errGroupWaitErr, errGroupFold, errGroupDone, errGroupInit, errGroupFold_fixed]

theorem errGroupFold_cancelled_iff_any (l : List (Option Err)) :
    (errGroupFold l).cancelled = l.any Option.isSome := by
  induction l with
  | nil => rfl
  | cons hd tl ih =>
    cases hd with
    | none => simpa [errGroupFold, errGroupDone] using ih
    | some e =>
      simp [errGroupFold, errGroupDone, errGroupInit, errGroupFold_fixed]

theorem taskBody_of_pos (input : Input) (src : Nat → Nat) (pos : Nat)
    (workerRes : Option Err) (hd : 0 < input.DelayMillis) :
    taskBody input src pos workerRes =
      ([.drewJitter (src pos % input.DelayMillis.toNat),
        .slept (((src pos % input.DelayMillis.toNat : Nat) : Int) * 1000000),
        .calledWorker .errgroupShared input noInstanceId .fromMain],
       .completed workerRes) := by
  unfold taskBody intn
  rw [if_neg (by omega)]

theorem taskBody_of_nonpos (input : Input) (src : Nat → Nat) (pos : Nat)
    (workerRes : Option Err) (hd : input.DelayMillis ≤ 0) :
    taskBody input src pos workerRes = ([], .panicked intnPanicMsg) := by
  unfold taskBody intn
  rw [if_pos hd]

theorem runWorkersTasks_length (input : Input) (p : RunParams) :
    (runWorkersTasks input p).length = input.Instances.toNat := by
  simp [runWorkersTasks]

theorem runWorkersTasks_getD (input : Input) (p : RunParams) (i : Nat)
    (h : i < input.Instances.toNat) (d0 : List TaskEvent × TaskResult) :
    (runWorkersTasks input p).getD i d0 =
      taskBody input p.src (p.posOf i) (p.workerErr i) := by
  unfold runWorkersTasks
  rw [List.getD_eq_getElem?_getD, List.getElem?_map, List.getElem?_range h]
  rfl

/-- C3: in benchmark mode configuration construction fails (the
`panic(err)` at src/main.go:146) exactly when `strconv.Atoi` rejects the
regression-lookback value, and the failure happens before any benchmark or
worker task is launched; in load-generation mode the value is never checked
and `parseFlags` always returns a configuration. -/
theorem parseFlags_bench_lookback_check (env : String) (args : Args) (now : Int) :
    (args.bench.getD false = true →
        resultIsError (parseFlags env args now).result = atoiFails (args.rd.getD rdDefault))
    ∧ (args.bench.getD false = false →
        resultIsError (parseFlags env args now).result = false)
    ∧ (resultIsError (parseFlags env args now).result = true →
        (mainEvents env args now).all (fun ev => ! startsTask ev) = true) := by
  refine ⟨?_, ?_, ?_⟩
  · intro hb
    cases h : goAtoi (args.rd.getD rdDefault) with
    | error err => simp [parseFlags, hb, h, resultIsError, atoiFails]
    | ok v => simp [parseFlags, hb, h, resultIsError, atoiFails]
  · intro hb
    simp [parseFlags, hb, resultIsError]
  · intro herr
    unfold mainEvents
    cases h : (parseFlags env args now).result with
    | error err => simp
    | ok inp =>
      rw [h] at herr
      simp [resultIsError] at herr

def abcStr : String := "abc"

def a3Args : Args := { bench := some true, rd := some abcStr }

theorem parseFlags_bench_lookback_check_witness :
    resultIsError (parseFlags emptyEnv a3Args 0).result = atoiFails abcStr
    ∧ (mainEvents emptyEnv a3Args 0).all (fun ev => ! startsTask ev) = true :=
  ⟨(parseFlags_bench_lookback_check emptyEnv a3Args 0).1 rfl,
   (parseFlags_bench_lookback_check emptyEnv a3Args 0).2.2 (by decide)⟩

/-- C4: in load-generation mode (span limits are load-generation flags)
configuration construction always succeeds, the returned minimum span limit
is the supplied one, the returned maximum is raised to the minimum exactly
when the supplied pair is inverted and is otherwise unchanged, and the
returned configuration always satisfies SpanMinLimit ≤ SpanMaxLimit. -/
theorem parseFlags_span_clamp (env : String) (args : Args) (now : Int)
    (hb : args.bench.getD false = false) :
    (parseFlags env args now).result.map Input.SpanMinLimit = .ok (args.sm.getD 1)
    ∧ (parseFlags env args now).result.map Input.SpanMaxLimit
        = .ok (if args.sx.getD 10 < args.sm.getD 1 then args.sm.getD 1 else args.sx.getD 10)
    ∧ ∀ inp, (parseFlags env args now).result = .ok inp →
        inp.SpanMinLimit ≤ inp.SpanMaxLimit := by
  refine ⟨?_, ?_, ?_⟩
  · simp [parseFlags, hb, Except.map]
  · simp [parseFlags, hb, Except.map]
  · intro inp h
    simp [parseFlags, hb] at h
    subst h
    simp only []
    split <;> omega

def a4Args : Args := { bench := some false, sm := some 5, sx := some 2 }

theorem parseFlags_span_clamp_witness :
    (parseFlags emptyEnv a4Args 0).result.map Input.SpanMaxLimit = .ok 5
    ∧ (parseFlags emptyEnv a4Args 0).result.map Input.SpanMinLimit = .ok 5 :=
  ⟨(parseFlags_span_clamp emptyEnv a4Args 0 rfl).2.1,
   (parseFlags_span_clamp emptyEnv a4Args 0 rfl).1⟩

/-- C10: with the ELASTIC_APM_SERVICE_NAME environment variable unset (empty),
every configuration `parseFlags` returns carries the literal default
service name, whatever command-line values — including a service-name
argument — were supplied: the flag pointer is dereferenced at
src/main.go:92, before `flag.Parse()` runs at line 120. -/
theorem parseFlags_service_name_default (args : Args) (now : Int) :
    ∀ inp, (parseFlags emptyEnv args now).result = .ok inp →
      inp.ServiceName = heyService := by
  intro inp h
  cases hb : args.bench.getD false with
  | false =>
    simp [parseFlags, hb] at h
    subst h
    rfl
  | true =>
    cases ha : goAtoi (args.rd.getD rdDefault) with
    | error err => simp [parseFlags, hb, ha] at h
    | ok v =>
      simp [parseFlags, hb, ha] at h
      subst h
      rfl

/-- The configuration `parseFlags` produces in load-generation mode when
every flag is left at its registered default. -/
def loadDefaultInput : Input :=
  { IsBenchmark := false
    ApmServerUrl := apmUrlDefault
    ServiceName := heyService
    ElasticsearchUrl := esUrlDefault
    ApmElasticsearchUrl := esUrlDefault
    RunTimeout := 30 * nanosPerSecond
    FlushTimeout := 10 * nanosPerSecond
    Instances := 1
    DelayMillis := 1000
    TransactionFrequency := 1
    TransactionLimit := 2 ^ 63 - 1
    SpanMaxLimit := 10
    SpanMinLimit := 1
    ErrorFrequency := 1
    ErrorLimit := 2 ^ 63 - 1
    ErrorFrameMaxLimit := 10
    ErrorFrameMinLimit := 0 }

def customNameStr : String := "attempted-override"

def a10Args : Args := { serviceName := some customNameStr }

theorem parseFlags_service_name_default_witness :
    (parseFlags emptyEnv a10Args 7).result = .ok loadDefaultInput
    ∧ loadDefaultInput.ServiceName = heyService :=
  ⟨rfl, parseFlags_service_name_default a10Args 7 loadDefaultInput rfl⟩

/-- C7 counterexample: at the concrete run with no flags supplied and Unix
time 5, the process performs two `rand.Seed` calls — the constant seed 1000
in `func init` (src/main.go:25) and the flag-derived seed in `parseFlags`
(src/main.go:126) — so configuration construction is not the only seeding
and the generator is not seeded exactly once per process. -/
theorem process_seeds_twice_cex :
    processSeedCalls emptyEnv { } 5 = [1000, 5]
    ∧ (processSeedCalls emptyEnv { } 5).length ≠ 1 :=
  ⟨rfl, by decide⟩

/-- C7 (amended): configuration construction itself seeds the shared
generator exactly once, with the caller-supplied seed or, by default, the
current Unix time; the only other seeding in the process is the constant
seed 1000 performed by `func init` before `parseFlags` runs, so the process
seeds twice with the configuration-time seed last (authoritative). -/
theorem parseFlags_seed_calls (env : String) (args : Args) (now : Int) :
    (parseFlags env args now).seedCalls = [args.seed.getD now]
    ∧ processSeedCalls env args now = [1000, args.seed.getD now] := by
  have h1 : (parseFlags env args now).seedCalls = [args.seed.getD now] := by
    cases hb : args.bench.getD false with
    | false => simp [parseFlags, hb]
    | true =>
      cases ha : goAtoi (args.rd.getD rdDefault) with
      | error err => simp [parseFlags, hb, ha]
      | ok v => simp [parseFlags, hb, ha]
  exact ⟨h1, by simp [processSeedCalls, initSeedCalls, h1]⟩

/-- C2: for every run that gets past configuration construction, `Main`
installs exactly one interrupt discipline, selected by the mode and
installed before the benchmark or the workers start: hard cancellation of
the shared context in benchmark mode, a one-shot close of the broadcast
stop channel in load-generation mode.  As soon as at least one interrupt
arrives, the benchmark-mode handler does cancel the shared context and the
load-generation handler does close the stop channel; whatever the number
of interrupts, each handler acts at most once, the load-generation handler
never cancels the shared context, and the benchmark handler never closes a
stop channel: the two disciplines are never both active in one run. -/
theorem main_one_discipline_per_run (env : String) (args : Args) (now : Int) :
    (∀ inp, (parseFlags env args now).result = .ok inp →
        mainEvents env args now =
          if inp.IsBenchmark then
            [.parsedConfig, .installedHandler .hardCancel, .startedBenchmark]
          else
            [.parsedConfig, .installedHandler .gracefulStop, .startedWorkers])
    ∧ (∀ k, 1 ≤ k → interruptHandler .hardCancel k = [.cancelSharedCtx])
    ∧ (∀ k, 1 ≤ k → interruptHandler .gracefulStop k = [.closeStopChannel])
    ∧ (∀ k, interruptHandler .hardCancel k = []
          ∨ interruptHandler .hardCancel k = [.cancelSharedCtx])
    ∧ (∀ k, interruptHandler .gracefulStop k = []
          ∨ interruptHandler .gracefulStop k = [.closeStopChannel])
    ∧ (∀ k, HandlerAction.cancelSharedCtx ∉ interruptHandler .gracefulStop k)
    ∧ (∀ k, HandlerAction.closeStopChannel ∉ interruptHandler .hardCancel k) := by
  refine ⟨?_, ?_, ?_, ?_, ?_, ?_, ?_⟩
  · intro inp h
    unfold mainEvents
    rw [h]
  · intro k hk
    have hk0 : k ≠ 0 := by omega
    simp [interruptHandler, hk0]
  · intro k hk
    have hk0 : k ≠ 0 := by omega
    simp [interruptHandler, hk0]
  · intro k
    by_cases hk : k = 0 <;> simp [interruptHandler, hk]
  · intro k
    by_cases hk : k = 0 <;> simp [interruptHandler, hk]
  · intro k
    by_cases hk : k = 0 <;> simp [interruptHandler, hk]
  · intro k
    by_cases hk : k = 0 <;> simp [interruptHandler, hk]

theorem main_one_discipline_per_run_witness :
    (parseFlags emptyEnv { } 0).result = .ok loadDefaultInput
    ∧ mainEvents emptyEnv { } 0 =
        [.parsedConfig, .installedHandler .gracefulStop, .startedWorkers]
    ∧ interruptHandler .hardCancel 1 = [.cancelSharedCtx]
    ∧ interruptHandler .gracefulStop 1 = [.closeStopChannel] := by
  refine ⟨rfl, ?_, ?_, ?_⟩
  · have h := (main_one_discipline_per_run emptyEnv { } 0).1 loadDefaultInput rfl
    simpa [loadDefaultInput] using h
  · exact (main_one_discipline_per_run emptyEnv { } 0).2.1 1 (by decide)
  · exact (main_one_discipline_per_run emptyEnv { } 0).2.2.1 1 (by decide)

/-- C1: with a positive jitter bound (so no task panics) and at least one
failing worker, `runWorkers` waits for every task (each of the
`input.Instances` spawned tasks runs to a terminal `completed` result and
the errgroup drains the full completion sequence), the shared context is
cancelled exactly from the first failure on (a failure-free prefix of the
completion order leaves it uncancelled, any prefix containing a failure has
it cancelled), and the run's return value is precisely the first error in
completion order — a single error, so at most one is surfaced per run. -/
theorem runWorkers_first_error_wins (input : Input) (p : RunParams)
    (hd : 0 < input.DelayMillis)
    (hmem : ∀ i ∈ p.completion, i < input.Instances.toNat)
    (_hlen : p.completion.length = input.Instances.toNat)
    (e : Err)
    (hfirst : ((p.completion.map p.workerErr).filterMap id).head? = some e) :
    runWorkersOutcome input p = .finished (some e)
    ∧ (runWorkersTasks input p).length = input.Instances.toNat
    ∧ (∀ tk ∈ runWorkersTasks input p, ∃ r, tk.2 = .completed r)
    ∧ (∀ n, (errGroupFold ((p.completion.map p.workerErr).take n)).cancelled
          = ((p.completion.map p.workerErr).take n).any Option.isSome) := by
  have herrs : taskErrs input p = p.completion.map p.workerErr := by
    unfold taskErrs
    refine List.map_congr_left ?_
    intro i hi
    rw [runWorkersTasks_getD input p i (hmem i hi),
      taskBody_of_pos input p.src (p.posOf i) (p.workerErr i) hd]
    rfl
  have hnocrash : ((runWorkersTasks input p).any fun tk => isPanickedRes tk.2) = false := by
    rw [List.any_eq_false]
    intro tk htk
    simp only [runWorkersTasks, List.mem_map, List.mem_range] at htk
    obtain ⟨i, hi, rfl⟩ := htk
    rw [taskBody_of_pos input p.src (p.posOf i) (p.workerErr i) hd]
    simp [isPanickedRes]
  refine ⟨?_, runWorkersTasks_length input p, ?_, ?_⟩
  · unfold runWorkersOutcome
    rw [hnocrash]
    simp only [Bool.false_eq_true, if_false]
    rw [herrs, errGroupWaitErr_eq_head, hfirst]
  · intro tk htk
    simp only [runWorkersTasks, List.mem_map, List.mem_range] at htk
    obtain ⟨i, hi, rfl⟩ := htk
    rw [taskBody_of_pos input p.src (p.posOf i) (p.workerErr i) hd]
    exact ⟨p.workerErr i, rfl⟩
  · intro n
    exact errGroupFold_cancelled_iff_any _

def boomStr : String := "boom"

def w1Input : Input := { loadDefaultInput with Instances := 3 }

def w1Params : RunParams :=
  { src := fun n => 5 * n + 2
    posOf := fun i => i
    workerErr := fun i => if i = 1 then some boomStr else none
    completion := [0, 1, 2] }

theorem runWorkers_first_error_wins_witness :
    runWorkersOutcome w1Input w1Params = .finished (some boomStr)
    ∧ (runWorkersTasks w1Input w1Params).length = 3 := by
  have h := runWorkers_first_error_wins w1Input w1Params (by decide)
    (by decide) rfl boomStr (by decide)
  exact ⟨h.1, h.2.1⟩

/-- C8: with instances = 0 the loop at src/main.go:68 spawns no task, so
`runWorkers` performs no worker-facade call and `g.Wait()` returns nil. -/
theorem runWorkers_zero_instances (input : Input) (p : RunParams)
    (h0 : input.Instances = 0) (hc : p.completion = []) :
    runWorkersTasks input p = []
    ∧ workerCallCount input p = 0
    ∧ runWorkersOutcome input p = .finished none := by
  have ht : runWorkersTasks input p = [] := by
    simp [runWorkersTasks, h0]
  refine ⟨ht, ?_, ?_⟩
  · simp [workerCallCount, ht]
  · simp [runWorkersOutcome, ht, taskErrs, hc, errGroupWaitErr, errGroupFold, errGroupInit]

def w8Input : Input := { loadDefaultInput with Instances := 0 }

def w8Params : RunParams :=
  { src := fun _ => 0
    posOf := fun i => i
    workerErr := fun _ => none
    completion := [] }

theorem runWorkers_zero_instances_witness :
    runWorkersTasks w8Input w8Params = []
    ∧ workerCallCount w8Input w8Params = 0
    ∧ runWorkersOutcome w8Input w8Params = .finished none :=
  runWorkers_zero_instances w8Input w8Params rfl rfl

def cex5Input : Input := { loadDefaultInput with Instances := 1, DelayMillis := 0 }

def cex5Params : RunParams :=
  { src := fun _ => 0
    posOf := fun i => i
    workerErr := fun _ => none
    completion := [0] }

/-- C5 counterexample: at the concrete load-generation run with
instances = 1 and the non-negative startJitterBound (DelayMillis) 0, the
single spawned task records no jitter draw and makes no worker-facade
call — `rand.Intn(0)` panics and the run crashes — refuting the claim that
every such task draws a jitter from the empty interval [0, 0) and then
invokes the facade. -/
theorem runWorkers_zero_jitter_bound_cex :
    cex5Input.DelayMillis = 0
    ∧ runWorkersTasks cex5Input cex5Params = [([], .panicked intnPanicMsg)]
    ∧ workerCallCount cex5Input cex5Params = 0
    ∧ runWorkersOutcome cex5Input cex5Params = .crashed :=
  ⟨rfl, rfl, rfl, rfl⟩

/-- C5 (amended): in load-generation mode with a strictly positive
startJitterBound, `runWorkers` spawns exactly `input.Instances` tasks and
every task first draws a jitter value in [0, startJitterBound) from the
shared seeded stream, sleeps that many milliseconds, and only then invokes
the worker facade with the shared errgroup context, the configuration, the
empty instance id and the stop channel; no jitter is negative, so no task
begins before time 0. -/
theorem runWorkers_tasks_draw_then_call (input : Input) (p : RunParams)
    (hd : 0 < input.DelayMillis) :
    (runWorkersTasks input p).length = input.Instances.toNat
    ∧ ∀ i, i < input.Instances.toNat →
        ∃ d : Nat, (0 : Int) ≤ (d : Int) ∧ (d : Int) < input.DelayMillis ∧
          (runWorkersTasks input p).getD i ([], .panicked intnPanicMsg) =
            ([.drewJitter d, .slept ((d : Int) * 1000000),
              .calledWorker .errgroupShared input noInstanceId .fromMain],
             .completed (p.workerErr i)) := by
  refine ⟨runWorkersTasks_length input p, ?_⟩
  intro i hi
  refine ⟨p.src (p.posOf i) % input.DelayMillis.toNat, by omega, ?_, ?_⟩
  · have h1 : p.src (p.posOf i) % input.DelayMillis.toNat < input.DelayMillis.toNat :=
      Nat.mod_lt _ (by omega)
    omega
  · rw [runWorkersTasks_getD input p i hi,
      taskBody_of_pos input p.src (p.posOf i) (p.workerErr i) hd]

def w5Input : Input := { loadDefaultInput with Instances := 2 }

def w5Params : RunParams :=
  { src := fun n => 7 * n + 3
    posOf := fun i => i
    workerErr := fun _ => none
    completion := [0, 1] }

theorem runWorkers_tasks_draw_then_call_witness :
    0 < w5Input.DelayMillis ∧ (runWorkersTasks w5Input w5Params).length = 2 :=
  ⟨by decide, (runWorkers_tasks_draw_then_call w5Input w5Params (by decide)).1⟩

/-- C9: with a zero or negative DelayMillis and at least one instance, every
spawned task panics in its `rand.Intn` jitter draw with "invalid argument
to Intn" before reaching the worker facade: no facade call happens and the
run crashes, so a zero startJitterBound is not supported at the
`runWorkers` interface. -/
theorem runWorkers_nonpositive_bound_panics (input : Input) (p : RunParams)
    (hd : input.DelayMillis ≤ 0) :
    (∀ i, i < input.Instances.toNat →
        (runWorkersTasks input p).getD i ([], .panicked intnPanicMsg)
          = ([], .panicked intnPanicMsg))
    ∧ workerCallCount input p = 0
    ∧ (1 ≤ input.Instances.toNat → runWorkersOutcome input p = .crashed) := by
  refine ⟨?_, ?_, ?_⟩
  · intro i hi
    rw [runWorkersTasks_getD input p i hi,
      taskBody_of_nonpos input p.src (p.posOf i) (p.workerErr i) hd]
  · unfold workerCallCount
    refine List.sum_eq_zero ?_
    intro x hx
    simp only [List.mem_map] at hx
    obtain ⟨tk, htk, rfl⟩ := hx
    simp only [runWorkersTasks, List.mem_map, List.mem_range] at htk
    obtain ⟨i, hi, rfl⟩ := htk
    rw [taskBody_of_nonpos input p.src (p.posOf i) (p.workerErr i) hd]
    rfl
  · intro hN
    unfold runWorkersOutcome
    have hcrash : ((runWorkersTasks input p).any fun tk => isPanickedRes tk.2) = true := by
      rw [List.any_eq_true]
      refine ⟨taskBody input p.src (p.posOf 0) (p.workerErr 0), ?_, ?_⟩
      · simp only [runWorkersTasks, List.mem_map, List.mem_range]
        exact ⟨0, by omega, rfl⟩
      · rw [taskBody_of_nonpos input p.src (p.posOf 0) (p.workerErr 0) hd]
        rfl
    rw [hcrash]
    rfl

def w9Input : Input := { loadDefaultInput with Instances := 2, DelayMillis := 0 }

def w9Params : RunParams :=
  { src := fun n => n + 11
    posOf := fun i => i
    workerErr := fun _ => none
    completion := [0, 1] }

theorem runWorkers_nonpositive_bound_panics_witness :
    workerCallCount w9Input w9Params = 0
    ∧ runWorkersOutcome w9Input w9Params = .crashed :=
  ⟨(runWorkers_nonpositive_bound_panics w9Input w9Params (by decide)).2.1,
   (runWorkers_nonpositive_bound_panics w9Input w9Params (by decide)).2.2 (by decide)⟩
